import Mathlib

/-!
Shallow embedding of the session-lifecycle and datastore-lock coordination
subsystem of `src/server/main.c` (netopeer2-server).

Conventions of the embedding:
* a `struct nc_session *` is represented by its identity, a `Nat`
  (`NcSessionId`); the null pointer is `Option.none` where a nullable
  pointer is passed;
* a `sr_session_ctx_t *` (sysrepo session handle) is likewise a `Nat`
  (`SrSessionHandle`), `none` meaning the handle is absent / already closed;
* side effects (closing a store handle, freeing memory, sleeping, polling)
  are recorded as explicit event traces, so ordering claims become claims
  about lists;
* the external library primitives (`nc_ps_poll`, `nc_accept`,
  `sr_session_start_user`, ...) are environment inputs: their results are
  parameters of the embedded functions, exactly as the spec treats them
  (external collaborators with fixed contracts).
-/

/-- Identity of a `struct nc_session` (the transport-layer protocol session). -/
abbrev NcSessionId := Nat

/-- Identity of a sysrepo session handle (`sr_session_ctx_t *`). -/
abbrev SrSessionHandle := Nat

/-- `enum LOOPCTRL` from `main.c`: control flags for the main loop. -/
inductive LOOPCTRL where
  | LOOP_CONTINUE
  | LOOP_RESTART
  | LOOP_STOP
deriving DecidableEq, Repr

export LOOPCTRL (LOOP_CONTINUE LOOP_RESTART LOOP_STOP)

/-- `struct np2srv_dslock`: the Lock Registry — one slot per datastore,
each holding the session that owns the exclusive lock, or `none`. -/
structure np2srv_dslock where
  running : Option NcSessionId
  startup : Option NcSessionId
  candidate : Option NcSessionId
deriving DecidableEq, Repr

/-- sysrepo constant `SR_DS_RUNNING` (datastore selector stored in the binding). -/
def SR_DS_RUNNING : Nat := 1

/-- sysrepo constant `SR_SESS_DEFAULT` (session options stored in the binding). -/
def SR_SESS_DEFAULT : Nat := 0

/-- `struct np2_sessions`: the StoreBinding — associates one protocol session
(`ncs`) with one backing sysrepo session (`srs`), plus datastore selector and
options. `srs = none` models a null / already-closed store handle. -/
structure np2_sessions where
  ncs : NcSessionId
  srs : Option SrSessionHandle
  ds : Nat
  opts : Nat
deriving DecidableEq, Repr

/-- `np2srv_clean_dslock(ncs)`: clear every Lock Registry slot currently held
by session `ncs` (each of the three slots is compared and nulled). -/
def np2srv_clean_dslock (ncs : NcSessionId) (d : np2srv_dslock) : np2srv_dslock :=
  { running := if d.running = some ncs then none else d.running
    startup := if d.startup = some ncs then none else d.startup
    candidate := if d.candidate = some ncs then none else d.candidate }

/-- Events emitted by StoreBinding teardown (`free_ds`). -/
inductive TDEvent where
  | closeStore (h : SrSessionHandle)
  | releaseAllFor (s : NcSessionId)
  | freeBinding
deriving DecidableEq, Repr

/-- `free_ds(ptr)`: teardown of a StoreBinding, with the Lock Registry
threaded through. Mirrors the C body statement by statement: a null pointer
does nothing; otherwise `sr_session_stop(s->srs)` runs only when the handle
is present, then `np2srv_clean_dslock(s->ncs)`, then `free(s)`. The emitted
trace records the three steps in program order. -/
def free_ds (ptr : Option np2_sessions) (d : np2srv_dslock) :
    List TDEvent × np2srv_dslock :=
  match ptr with
  | none => ([], d)
  | some s =>
    let closeEvs : List TDEvent :=
      match s.srs with
      | some h => [TDEvent.closeStore h]
      | none => []
    (closeEvs ++ [TDEvent.releaseAllFor s.ncs, TDEvent.freeBinding],
     np2srv_clean_dslock s.ncs d)

/-- Claim C5: for every session `S` and every Lock Registry state, after
`np2srv_clean_dslock S` no slot references `S`. -/
theorem C5_release_all_for_complete (d : np2srv_dslock) (S : NcSessionId) :
    (np2srv_clean_dslock S d).running ≠ some S ∧
    (np2srv_clean_dslock S d).startup ≠ some S ∧
    (np2srv_clean_dslock S d).candidate ≠ some S := by
  unfold np2srv_clean_dslock
  refine ⟨?_, ?_, ?_⟩ <;> dsimp only <;> split <;> simp_all

/-- Witness for C5 at a concrete registry where `S = 4` holds all three slots. -/
theorem C5_release_all_for_complete_witness :
    (np2srv_clean_dslock 4 { running := some 4, startup := some 4, candidate := some 4 }).running ≠ some 4 ∧
    (np2srv_clean_dslock 4 { running := some 4, startup := some 4, candidate := some 4 }).startup ≠ some 4 ∧
    (np2srv_clean_dslock 4 { running := some 4, startup := some 4, candidate := some 4 }).candidate ≠ some 4 :=
  C5_release_all_for_complete { running := some 4, startup := some 4, candidate := some 4 } 4

/-- Claim C9: frame property of `np2srv_clean_dslock`: every slot is either
left exactly as it was or cleared (never set to a holder), and a slot that
does not hold `S` is left unchanged. -/
theorem C9_clean_dslock_frame (d : np2srv_dslock) (S : NcSessionId) :
    ((np2srv_clean_dslock S d).running = d.running ∨ (np2srv_clean_dslock S d).running = none) ∧
    ((np2srv_clean_dslock S d).startup = d.startup ∨ (np2srv_clean_dslock S d).startup = none) ∧
    ((np2srv_clean_dslock S d).candidate = d.candidate ∨ (np2srv_clean_dslock S d).candidate = none) ∧
    (d.running ≠ some S → (np2srv_clean_dslock S d).running = d.running) ∧
    (d.startup ≠ some S → (np2srv_clean_dslock S d).startup = d.startup) ∧
    (d.candidate ≠ some S → (np2srv_clean_dslock S d).candidate = d.candidate) := by
  unfold np2srv_clean_dslock
  refine ⟨?_, ?_, ?_, ?_, ?_, ?_⟩ <;> dsimp only <;> split <;> simp_all

/-- Witness for C9: cleaning for session 5 leaves slots held by session 7 or
unlocked untouched. -/
theorem C9_clean_dslock_frame_witness :
    (np2srv_clean_dslock 5 { running := some 7, startup := none, candidate := some 5 }).running = some 7 ∧
    (np2srv_clean_dslock 5 { running := some 7, startup := none, candidate := some 5 }).startup = none :=
  ⟨(C9_clean_dslock_frame { running := some 7, startup := none, candidate := some 5 } 5).2.2.2.1
      (by decide),
   (C9_clean_dslock_frame { running := some 7, startup := none, candidate := some 5 } 5).2.2.2.2.1
      (by decide)⟩

/-- Claim C6: `free_ds` on a live binding performs, in this exact order:
close the store handle (skipped when absent), release all locks of the bound
session, free the binding; the resulting registry is exactly
`np2srv_clean_dslock` of the bound session. -/
theorem C6_free_ds_order (s : np2_sessions) (d : np2srv_dslock) :
    (free_ds (some s) d).2 = np2srv_clean_dslock s.ncs d ∧
    ((∃ h, s.srs = some h ∧
        (free_ds (some s) d).1 =
          [TDEvent.closeStore h, TDEvent.releaseAllFor s.ncs, TDEvent.freeBinding]) ∨
     (s.srs = none ∧
        (free_ds (some s) d).1 = [TDEvent.releaseAllFor s.ncs, TDEvent.freeBinding])) := by
  cases hsrs : s.srs with
  | none => exact ⟨by simp [free_ds, hsrs], Or.inr ⟨rfl, by simp [free_ds, hsrs]⟩⟩
  | some h => exact ⟨by simp [free_ds, hsrs], Or.inl ⟨h, rfl, by simp [free_ds, hsrs]⟩⟩

/-- Witness for C6 at a concrete binding holding store handle 9. -/
theorem C6_free_ds_order_witness :
    (free_ds (some { ncs := 2, srs := some 9, ds := SR_DS_RUNNING, opts := SR_SESS_DEFAULT })
      { running := some 2, startup := none, candidate := none }).2 =
      np2srv_clean_dslock 2 { running := some 2, startup := none, candidate := none } ∧
    ((∃ h, ({ ncs := 2, srs := some 9, ds := SR_DS_RUNNING, opts := SR_SESS_DEFAULT } : np2_sessions).srs = some h ∧
        (free_ds (some { ncs := 2, srs := some 9, ds := SR_DS_RUNNING, opts := SR_SESS_DEFAULT })
          { running := some 2, startup := none, candidate := none }).1 =
          [TDEvent.closeStore h, TDEvent.releaseAllFor 2, TDEvent.freeBinding]) ∨
     (({ ncs := 2, srs := some 9, ds := SR_DS_RUNNING, opts := SR_SESS_DEFAULT } : np2_sessions).srs = none ∧
        (free_ds (some { ncs := 2, srs := some 9, ds := SR_DS_RUNNING, opts := SR_SESS_DEFAULT })
          { running := some 2, startup := none, candidate := none }).1 =
          [TDEvent.releaseAllFor 2, TDEvent.freeBinding])) :=
  C6_free_ds_order { ncs := 2, srs := some 9, ds := SR_DS_RUNNING, opts := SR_SESS_DEFAULT }
    { running := some 2, startup := none, candidate := none }

/-- Claim C10: `free_ds` is total on degenerate inputs: a null pointer does
nothing at all (no close, no lock cleanup, no free, registry untouched), and
a binding with an absent store handle skips only the close step — lock
cleanup and the free still run. -/
theorem C10_free_ds_degenerate (d : np2srv_dslock) (s : np2_sessions) (hs : s.srs = none) :
    free_ds none d = ([], d) ∧
    (free_ds (some s) d).1 = [TDEvent.releaseAllFor s.ncs, TDEvent.freeBinding] ∧
    (free_ds (some s) d).2 = np2srv_clean_dslock s.ncs d := by
  refine ⟨rfl, ?_, ?_⟩ <;> simp [free_ds, hs]

/-- Witness for C10 at a binding whose store handle is already absent. -/
theorem C10_free_ds_degenerate_witness :
    free_ds none { running := none, startup := some 3, candidate := none } =
      ([], { running := none, startup := some 3, candidate := none }) ∧
    (free_ds (some { ncs := 3, srs := none, ds := SR_DS_RUNNING, opts := SR_SESS_DEFAULT })
      { running := none, startup := some 3, candidate := none }).1 =
      [TDEvent.releaseAllFor 3, TDEvent.freeBinding] ∧
    (free_ds (some { ncs := 3, srs := none, ds := SR_DS_RUNNING, opts := SR_SESS_DEFAULT })
      { running := none, startup := some 3, candidate := none }).2 =
      np2srv_clean_dslock 3 { running := none, startup := some 3, candidate := none } :=
  C10_free_ds_degenerate { running := none, startup := some 3, candidate := none }
    { ncs := 3, srs := none, ds := SR_DS_RUNNING, opts := SR_SESS_DEFAULT } rfl

/-- Signals handled by `signal_handler` in `main.c`. `otherSig` stands for any
signal reaching the handler outside the two handled classes (the `default`
case). -/
inductive Sig where
  | SIGINT
  | SIGTERM
  | SIGQUIT
  | SIGABRT
  | SIGHUP
  | SIGUSR1
  | otherSig
deriving DecidableEq, Repr

/-- Termination-class signals (the `SIGINT/SIGTERM/SIGQUIT/SIGABRT` cases). -/
def isTermClass : Sig → Bool
  | Sig.SIGINT | Sig.SIGTERM | Sig.SIGQUIT | Sig.SIGABRT => true
  | _ => false

/-- Restart-class signals (the `SIGHUP/SIGUSR1` cases). -/
def isRestartClass : Sig → Bool
  | Sig.SIGHUP | Sig.SIGUSR1 => true
  | _ => false

/-- Outcome of one invocation of the signal handler: either the process keeps
running with updated `(quit, control)` state, or the handler calls
`exit(EXIT_FAILURE)` immediately (bypassing all teardown). -/
inductive SigOutcome where
  | setState (quit : Nat) (control : LOOPCTRL)
  | exitFailure
deriving DecidableEq, Repr

/-- `signal_handler(sig)`: `quit` is the handler's `static int quit` and
`control` the global flag at entry. A first termination-class signal sets
`quit = 1` and `control = LOOP_STOP`; a second one (`quit != 0`) calls
`exit(EXIT_FAILURE)` before reaching the `control` assignment. A
restart-class signal sets `control = LOOP_RESTART` (leaving `quit` as is).
Any other signal hits the `default` case and exits with failure. -/
def signal_handler (quit : Nat) (control : LOOPCTRL) (sig : Sig) : SigOutcome :=
  match sig with
  | Sig.SIGINT | Sig.SIGTERM | Sig.SIGQUIT | Sig.SIGABRT =>
    if quit = 0 then SigOutcome.setState 1 LOOP_STOP
    else SigOutcome.exitFailure
  | Sig.SIGHUP | Sig.SIGUSR1 => SigOutcome.setState quit LOOP_RESTART
  | Sig.otherSig =>
    let _ := control
    SigOutcome.exitFailure

/-- Claim C3: the signal transition function is total on the handled classes
and deterministic in `(quit, control, sig)`: a termination-class signal in
the initial (`quit = 0`) state yields stop with stop-pending (`quit = 1`); a
termination-class signal while stop-pending (`quit ≠ 0`) exits immediately
with failure; a restart-class signal yields restart whatever the prior flag. -/
theorem C3_signal_transition_table (q : Nat) (c : LOOPCTRL) (sig : Sig) :
    (isTermClass sig = true → q = 0 →
      signal_handler q c sig = SigOutcome.setState 1 LOOP_STOP) ∧
    (isTermClass sig = true → q ≠ 0 →
      signal_handler q c sig = SigOutcome.exitFailure) ∧
    (isRestartClass sig = true →
      signal_handler q c sig = SigOutcome.setState q LOOP_RESTART) := by
  cases sig <;>
    simp only [isTermClass, isRestartClass, signal_handler] <;>
    refine ⟨?_, ?_, ?_⟩ <;> intro h <;> simp_all

/-- Witness for C3: first SIGINT at quit 0 requests stop; SIGTERM at quit 1
exits with failure; SIGHUP at quit 1 requests restart. -/
theorem C3_signal_transition_table_witness :
    signal_handler 0 LOOP_CONTINUE Sig.SIGINT = SigOutcome.setState 1 LOOP_STOP ∧
    signal_handler 1 LOOP_STOP Sig.SIGTERM = SigOutcome.exitFailure ∧
    signal_handler 1 LOOP_STOP Sig.SIGHUP = SigOutcome.setState 1 LOOP_RESTART :=
  ⟨(C3_signal_transition_table 0 LOOP_CONTINUE Sig.SIGINT).1 (by decide) rfl,
   (C3_signal_transition_table 1 LOOP_STOP Sig.SIGTERM).2.1 (by decide) (by decide),
   (C3_signal_transition_table 1 LOOP_STOP Sig.SIGHUP).2.2 (by decide)⟩

/-- Result of the backend call `sr_session_start_user` inside `connect_ds`:
either `SR_ERR_OK` together with the opened handle, or a sysrepo error code
(any value other than `SR_ERR_OK`; the out parameter is then not set). -/
inductive SrStartResult where
  | SR_ERR_OK (h : SrSessionHandle)
  | srErr (code : Nat)
deriving DecidableEq, Repr

/-- Events emitted by `connect_ds`. -/
inductive CEvent where
  | srSessionStartUser
  | ncSessionSetData (sid : NcSessionId)
  | freeIncomplete
deriving DecidableEq, Repr

/-- `connect_ds(ncs)`: bind an accepted protocol session to a fresh backing
store session. A null `ncs` fails at once; a failed `calloc`
(`allocOk = false`) fails with `EMEM`; otherwise the binding is filled
(`ds = SR_DS_RUNNING`, `opts = SR_SESS_DEFAULT`) and the store session is
opened under the session's user. On backend failure the error path frees the
partially built binding (the handle was not set, so there is nothing to
stop) and reports failure; on success `nc_session_set_data` attaches the
binding and the function returns success. The returned `Option np2_sessions`
is the binding attached to the session (`none` = `EXIT_FAILURE`). The
function never touches the Lock Registry. -/
def connect_ds (ncs : Option NcSessionId) (allocOk : Bool) (srStart : SrStartResult) :
    Option np2_sessions × List CEvent :=
  match ncs with
  | none => (none, [])
  | some n =>
    if allocOk then
      match srStart with
      | SrStartResult.SR_ERR_OK h =>
        (some { ncs := n, srs := some h, ds := SR_DS_RUNNING, opts := SR_SESS_DEFAULT },
         [CEvent.srSessionStartUser, CEvent.ncSessionSetData n])
      | SrStartResult.srErr _ =>
        (none, [CEvent.srSessionStartUser, CEvent.freeIncomplete])
    else (none, [])

/-- Transport-layer status of a session as seen by `nc_ps_clear(all = 0)`:
`invalid` marks a session whose status changed (terminated / broken) and that
is therefore removed by the clear. -/
inductive NcStatus where
  | alive
  | invalid
deriving DecidableEq, Repr

/-- A session as registered in the poll structure `np2srv.nc_ps`: the
transport session identity, its status, and the data pointer set by
`nc_session_set_data` (the StoreBinding, or `none` if never set). -/
structure NcSession where
  id : NcSessionId
  status : NcStatus
  data : Option np2_sessions
deriving DecidableEq, Repr

/-- `nc_ps_session_count`: number of sessions in the poll structure. -/
def nc_ps_session_count (ps : List NcSession) : Nat := ps.length

/-- Events of one Accept Loop iteration in `main`. -/
inductive AEvent where
  | ncAccept (rc : Int)
  | bindOk (sid : NcSessionId)
  | bindFail (sid : NcSessionId)
  | sessionFreeDirect (sid : NcSessionId)
  | psAdd (sid : NcSessionId)
deriving DecidableEq, Repr

/-- One iteration of the Accept Loop body in `main`: `nc_accept(500, &ncs)`
returned `rc`, yielding session `newSid` when `rc = 1`. On a new session,
`connect_ds` runs; on its failure the session is freed directly via
`nc_session_free(ncs, free_ds)` — whose data argument is null because
`nc_session_set_data` never ran — and the loop continues; on success the
session is added to the poll structure by `nc_ps_add_session`. Any other
`rc` leaves everything unchanged. -/
def accept_iter (ps : List NcSession) (d : np2srv_dslock) (rc : Int)
    (newSid : NcSessionId) (allocOk : Bool) (srStart : SrStartResult) :
    List NcSession × np2srv_dslock × List AEvent :=
  if rc = 1 then
    match connect_ds (some newSid) allocOk srStart with
    | (some s, _) =>
      (ps ++ [{ id := newSid, status := NcStatus.alive, data := some s }], d,
       [AEvent.ncAccept 1, AEvent.bindOk newSid, AEvent.psAdd newSid])
    | (none, _) =>
      let fr := free_ds none d
      (ps, fr.2, [AEvent.ncAccept 1, AEvent.bindFail newSid, AEvent.sessionFreeDirect newSid])
  else (ps, d, [AEvent.ncAccept rc])

/-- Claim C4: a failed bind is atomic: the SessionSet is unchanged (the
session is never registered), the direct-close path is taken, the Lock
Registry is exactly as before the bind attempt, `connect_ds` yields no
binding, and (when the backend call itself failed) the partially built
binding is freed on the error path. -/
theorem C4_bind_failure_atomic (ps : List NcSession) (d : np2srv_dslock)
    (sid : NcSessionId) (e : Nat) (allocOk : Bool) :
    (accept_iter ps d 1 sid allocOk (SrStartResult.srErr e)).1 = ps ∧
    (accept_iter ps d 1 sid allocOk (SrStartResult.srErr e)).2.1 = d ∧
    AEvent.psAdd sid ∉ (accept_iter ps d 1 sid allocOk (SrStartResult.srErr e)).2.2 ∧
    AEvent.sessionFreeDirect sid ∈ (accept_iter ps d 1 sid allocOk (SrStartResult.srErr e)).2.2 ∧
    (connect_ds (some sid) allocOk (SrStartResult.srErr e)).1 = none ∧
    CEvent.freeIncomplete ∈ (connect_ds (some sid) true (SrStartResult.srErr e)).2 := by
  cases allocOk <;> simp [accept_iter, connect_ds, free_ds]

/-- Witness for C4 at a concrete failed bind (session 6, error code 12). -/
theorem C4_bind_failure_atomic_witness :
    (accept_iter [] { running := none, startup := none, candidate := none } 1 6 true
      (SrStartResult.srErr 12)).1 = [] ∧
    (accept_iter [] { running := none, startup := none, candidate := none } 1 6 true
      (SrStartResult.srErr 12)).2.1 = { running := none, startup := none, candidate := none } ∧
    AEvent.psAdd 6 ∉ (accept_iter [] { running := none, startup := none, candidate := none } 1 6 true
      (SrStartResult.srErr 12)).2.2 ∧
    AEvent.sessionFreeDirect 6 ∈ (accept_iter [] { running := none, startup := none, candidate := none } 1 6 true
      (SrStartResult.srErr 12)).2.2 ∧
    (connect_ds (some 6) true (SrStartResult.srErr 12)).1 = none ∧
    CEvent.freeIncomplete ∈ (connect_ds (some 6) true (SrStartResult.srErr 12)).2 :=
  C4_bind_failure_atomic [] { running := none, startup := none, candidate := none } 6 12 true

/-- Claim C8: (i) the Accept Loop preserves the invariant that every session
in the SessionSet carries a live StoreBinding; (ii) whenever an accept
iteration registers the new session (`psAdd` appears in its trace), the bind
succeeded and the trace is exactly accept, then successful bind, then
registration — bind happens before registration. -/
theorem C8_bind_before_registration (ps : List NcSession) (d : np2srv_dslock)
    (sid : NcSessionId) (allocOk : Bool) (srStart : SrStartResult) (rc : Int)
    (hinv : ∀ s ∈ ps, s.data.isSome = true) :
    (∀ s ∈ (accept_iter ps d rc sid allocOk srStart).1, s.data.isSome = true) ∧
    (AEvent.psAdd sid ∈ (accept_iter ps d 1 sid allocOk srStart).2.2 →
      (connect_ds (some sid) allocOk srStart).1.isSome = true ∧
      (accept_iter ps d 1 sid allocOk srStart).2.2 =
        [AEvent.ncAccept 1, AEvent.bindOk sid, AEvent.psAdd sid]) := by
  constructor
  · intro s hs
    have hcases : (accept_iter ps d rc sid allocOk srStart).1 = ps ∨
        ∃ b, (accept_iter ps d rc sid allocOk srStart).1 =
          ps ++ [{ id := sid, status := NcStatus.alive, data := some b }] := by
      unfold accept_iter
      split
      · cases allocOk with
        | false => left; rfl
        | true =>
          cases srStart with
          | SR_ERR_OK h => right; exact ⟨_, rfl⟩
          | srErr c => left; rfl
      · left; rfl
    rcases hcases with hcase | ⟨b, hcase⟩
    · exact hinv s (hcase ▸ hs)
    · rw [hcase] at hs
      rcases List.mem_append.mp hs with h1 | h1
      · exact hinv s h1
      · rw [List.mem_singleton.mp h1]
        rfl
  · intro hmem
    cases allocOk with
    | false =>
      exact absurd hmem (by simp [accept_iter, connect_ds, free_ds])
    | true =>
      cases srStart with
      | SR_ERR_OK h => exact ⟨by simp [connect_ds], by simp [accept_iter, connect_ds]⟩
      | srErr c =>
        exact absurd hmem (by simp [accept_iter, connect_ds, free_ds])

/-- Witness for C8: empty initial SessionSet, successful bind of session 2
to store handle 7. -/
theorem C8_bind_before_registration_witness :
    (∀ s ∈ (accept_iter [] { running := none, startup := none, candidate := none } 1 2 true
        (SrStartResult.SR_ERR_OK 7)).1, s.data.isSome = true) ∧
    (AEvent.psAdd 2 ∈ (accept_iter [] { running := none, startup := none, candidate := none } 1 2 true
        (SrStartResult.SR_ERR_OK 7)).2.2 →
      (connect_ds (some 2) true (SrStartResult.SR_ERR_OK 7)).1.isSome = true ∧
      (accept_iter [] { running := none, startup := none, candidate := none } 1 2 true
        (SrStartResult.SR_ERR_OK 7)).2.2 =
        [AEvent.ncAccept 1, AEvent.bindOk 2, AEvent.psAdd 2]) :=
  C8_bind_before_registration [] { running := none, startup := none, candidate := none } 2 true
    (SrStartResult.SR_ERR_OK 7) 1 (by intro s hs; cases hs)

/-- `nc_ps_clear(ps, all, free_ds)` (transport-layer primitive, modelled per
its contract as used by `main.c`): walk the poll structure; every session is
removed when `all` is set, otherwise only sessions whose status became
invalid; each removed session's data (its StoreBinding) is passed to the
data-free callback `free_ds`, threading the Lock Registry. Returns the
remaining sessions, the concatenated teardown trace, and the new registry. -/
def nc_ps_clear (ps : List NcSession) (all : Bool) (d : np2srv_dslock) :
    List NcSession × List TDEvent × np2srv_dslock :=
  match ps with
  | [] => ([], [], d)
  | s :: rest =>
    if all || s.status == NcStatus.invalid then
      let fr := free_ds s.data d
      let k := nc_ps_clear rest all fr.2
      (k.1, fr.1 ++ k.2.1, k.2.2)
    else
      let k := nc_ps_clear rest all d
      (s :: k.1, k.2.1, k.2.2)

/-- Events of the Poll Worker (`process_loop`). -/
inductive WEvent where
  | idleSleep
  | poll (rc : Int)
  | teardown (e : TDEvent)
  | cooldownSleep
  | acceptChannel (sid : NcSessionId)
  | addSession (sid : NcSessionId)
  | threadDestroy
deriving DecidableEq, Repr

/-- One iteration of the `process_loop` body, given the result `rc` that
`nc_ps_poll(np2srv.nc_ps, 500)` returns and the session `newChan` that
`nc_ps_accept_ssh_channel` would yield. With no active session the worker
just sleeps briefly and re-checks the flag. Otherwise: `rc = -1` or `rc = 3`
("some session changed its status and should be removed") runs
`nc_ps_clear(0, free_ds)` followed by the `usleep(250)` cooldown; `rc = 5`
accepts the new SSH channel and adds it to the poll structure; any other
`rc` does nothing further. -/
def process_loop_iter (ps : List NcSession) (d : np2srv_dslock) (rc : Int)
    (newChan : NcSession) : List NcSession × np2srv_dslock × List WEvent :=
  if nc_ps_session_count ps ≠ 0 then
    if rc = -1 ∨ rc = 3 then
      let k := nc_ps_clear ps false d
      (k.1, k.2.2, WEvent.poll rc :: k.2.1.map WEvent.teardown ++ [WEvent.cooldownSleep])
    else if rc = 5 then
      (ps ++ [newChan], d,
       [WEvent.poll rc, WEvent.acceptChannel newChan.id, WEvent.addSession newChan.id])
    else (ps, d, [WEvent.poll rc])
  else (ps, d, [WEvent.idleSleep])

/-- The cleanup sequence after the `process_loop` while-loop exits:
`nc_ps_clear(np2srv.nc_ps, 1, free_ds)` — teardown of every remaining
session — followed by `nc_thread_destroy()`. -/
def process_loop_cleanup (ps : List NcSession) (d : np2srv_dslock) :
    List NcSession × List WEvent × np2srv_dslock :=
  let k := nc_ps_clear ps true d
  (k.1, k.2.1.map WEvent.teardown ++ [WEvent.threadDestroy], k.2.2)

/-- One scheduled iteration of the Poll Worker: the `control` value the
guard reads, the `rc` the poll would return, and the channel session the
transport would yield for `rc = 5`. -/
structure WIter where
  ctrl : LOOPCTRL
  rc : Int
  newChan : NcSession
deriving DecidableEq, Repr

/-- How a bounded run of `process_loop` ended: the thread ran its cleanup
and returned `NULL`, or the schedule was exhausted with the guard still
true (the loop was still iterating). -/
inductive WExit where
  | returnedNull
  | stillLooping
deriving DecidableEq, Repr

/-- `process_loop` over a finite schedule of environment observations: each
step first reads `control` (the guard); when it is `LOOP_CONTINUE` the body
runs with that step's poll result, otherwise the loop exits into the cleanup
sequence and the thread returns `NULL`. Returns the final poll structure,
Lock Registry, the full event trace, and how the run ended. -/
def process_loop_run (sched : List WIter) (ps : List NcSession) (d : np2srv_dslock) :
    List NcSession × np2srv_dslock × List WEvent × WExit :=
  match sched with
  | [] => (ps, d, [], WExit.stillLooping)
  | it :: rest =>
    if it.ctrl = LOOP_CONTINUE then
      let b := process_loop_iter ps d it.rc it.newChan
      let k := process_loop_run rest b.1 b.2.1
      (k.1, k.2.1, b.2.2 ++ k.2.2.1, k.2.2.2)
    else
      let c := process_loop_cleanup ps d
      (c.1, c.2.2, c.2.1, WExit.returnedNull)

/-- `nc_ps_clear` with `all` set removes every session. -/
theorem nc_ps_clear_all_empties (ps : List NcSession) (d : np2srv_dslock) :
    (nc_ps_clear ps true d).1 = [] := by
  induction ps generalizing d with
  | nil => rfl
  | cons s rest ih => simp [nc_ps_clear, ih]

/-- The teardown trace of `free_ds` contains exactly one `freeBinding` event
for a present binding and none for a null pointer. -/
theorem free_ds_count_freeBinding (o : Option np2_sessions) (d : np2srv_dslock) :
    ((free_ds o d).1).count TDEvent.freeBinding = if o.isSome then 1 else 0 := by
  cases o with
  | none => rfl
  | some s => cases hsrs : s.srs <;> simp [free_ds, hsrs]

/-- `nc_ps_clear` with `all` set frees exactly one binding per session that
carries one. -/
theorem nc_ps_clear_all_count (ps : List NcSession) (d : np2srv_dslock) :
    ((nc_ps_clear ps true d).2.1).count TDEvent.freeBinding =
      (ps.filter (fun s => s.data.isSome)).length := by
  induction ps generalizing d with
  | nil => rfl
  | cons s rest ih =>
    simp only [nc_ps_clear, Bool.true_or, if_true, List.count_append,
      free_ds_count_freeBinding, ih, List.filter]
    cases hdata : s.data <;> simp [Nat.add_comm]

/-- `nc_ps_clear` without `all` leaves a set of all-alive sessions untouched
and emits no teardown. -/
theorem nc_ps_clear_alive_id (ps : List NcSession) (d : np2srv_dslock)
    (hal : ∀ s ∈ ps, s.status = NcStatus.alive) :
    nc_ps_clear ps false d = (ps, [], d) := by
  induction ps with
  | nil => rfl
  | cons s rest ih =>
    have hs : s.status = NcStatus.alive := hal s (List.mem_cons_self s rest)
    have hrest := ih (fun t ht => hal t (List.mem_cons_of_mem s ht))
    simp [nc_ps_clear, hs, hrest]

/-- Counterexample to claim C2: a hard failure of the wait primitive does
not stop the Poll Worker. With one alive session registered, `nc_ps_poll`
returning `-1` is followed by another full iteration (the trace shows a
second poll after the failed one) and the run is still looping — the worker
neither stopped nor propagated any failure. -/
theorem C2_counterexample_wait_failure_not_fatal :
    (process_loop_run
      [ { ctrl := LOOP_CONTINUE, rc := -1,
          newChan := { id := 99, status := NcStatus.alive, data := none } },
        { ctrl := LOOP_CONTINUE, rc := 0,
          newChan := { id := 99, status := NcStatus.alive, data := none } } ]
      [{ id := 1, status := NcStatus.alive, data := none }]
      { running := none, startup := none, candidate := none }).2.2.1 =
      [WEvent.poll (-1), WEvent.cooldownSleep, WEvent.poll 0] ∧
    (process_loop_run
      [ { ctrl := LOOP_CONTINUE, rc := -1,
          newChan := { id := 99, status := NcStatus.alive, data := none } },
        { ctrl := LOOP_CONTINUE, rc := 0,
          newChan := { id := 99, status := NcStatus.alive, data := none } } ]
      [{ id := 1, status := NcStatus.alive, data := none }]
      { running := none, startup := none, candidate := none }).2.2.2 =
      WExit.stillLooping := by
  constructor <;> rfl

/-- Claim C2 as amended: when `nc_ps_poll` fails hard (`rc = -1`) the Poll
Worker treats it exactly like per-session termination: it runs
`nc_ps_clear(0, free_ds)` (a no-op on an all-alive set), sleeps the cooldown,
and keeps iterating — the run continues with the rest of the schedule and
ends however the rest ends; no failure is propagated (the loop exits only
when the ControlFlag leaves `LOOP_CONTINUE`, and then by returning `NULL`). -/
theorem C2_amended_wait_failure_continues (ps : List NcSession) (d : np2srv_dslock)
    (rest : List WIter) (ch : NcSession) (hne : ps ≠ [])
    (hal : ∀ s ∈ ps, s.status = NcStatus.alive) :
    process_loop_run ({ ctrl := LOOP_CONTINUE, rc := -1, newChan := ch } :: rest) ps d =
      ((process_loop_run rest ps d).1,
       (process_loop_run rest ps d).2.1,
       [WEvent.poll (-1), WEvent.cooldownSleep] ++ (process_loop_run rest ps d).2.2.1,
       (process_loop_run rest ps d).2.2.2) := by
  have hcnt : nc_ps_session_count ps ≠ 0 := by
    cases ps with
    | nil => exact absurd rfl hne
    | cons s r => simp [nc_ps_session_count]
  simp [process_loop_run, process_loop_iter, hcnt, nc_ps_clear_alive_id ps d hal]

/-- Witness for C2's amended statement: one alive session, empty remaining
schedule. -/
theorem C2_amended_wait_failure_continues_witness :
    process_loop_run
      [{ ctrl := LOOP_CONTINUE, rc := -1,
         newChan := { id := 99, status := NcStatus.alive, data := none } }]
      [{ id := 1, status := NcStatus.alive, data := none }]
      { running := none, startup := none, candidate := none } =
      ((process_loop_run [] [{ id := 1, status := NcStatus.alive, data := none }]
          { running := none, startup := none, candidate := none }).1,
       (process_loop_run [] [{ id := 1, status := NcStatus.alive, data := none }]
          { running := none, startup := none, candidate := none }).2.1,
       [WEvent.poll (-1), WEvent.cooldownSleep] ++
         (process_loop_run [] [{ id := 1, status := NcStatus.alive, data := none }]
            { running := none, startup := none, candidate := none }).2.2.1,
       (process_loop_run [] [{ id := 1, status := NcStatus.alive, data := none }]
          { running := none, startup := none, candidate := none }).2.2.2) :=
  C2_amended_wait_failure_continues
    [{ id := 1, status := NcStatus.alive, data := none }]
    { running := none, startup := none, candidate := none } []
    { id := 99, status := NcStatus.alive, data := none }
    (by decide) (by intro s hs; rcases List.mem_singleton.mp hs with rfl; rfl)

/-- Events of `main` after its accept loop exits (`main.c` lines 534-550),
in program order. -/
inductive MEvent where
  | pthreadJoinWorker
  | srSessionStopMain
  | srDisconnect
  | ncPsFree
  | ncServerDestroy
  | lyCtxDestroy
  | gotoRestart
  | returnRet
deriving DecidableEq, Repr

/-- The epilogue `main` runs once its accept loop observes a flag other than
`LOOP_CONTINUE`: first `pthread_join(tid, NULL)` (wait for the Poll Worker),
then the `cleanup` block — stop the internal sysrepo session when present,
disconnect, free the poll structure, destroy the server and the libyang
context — then either `goto restart` or return, depending on the flag. -/
def main_after_accept_loop (control : LOOPCTRL) (srsMain : Bool) : List MEvent :=
  MEvent.pthreadJoinWorker ::
    ((if srsMain then [MEvent.srSessionStopMain] else []) ++
     [MEvent.srDisconnect, MEvent.ncPsFree, MEvent.ncServerDestroy, MEvent.lyCtxDestroy] ++
     (if control = LOOP_RESTART then [MEvent.gotoRestart] else [MEvent.returnRet]))

/-- Claim C7: when the loops exit on a restart or stop request, the Poll
Worker's cleanup drains the SessionSet completely (no session remains), its
trace is teardown events followed by the release of worker-internal
resources (`nc_thread_destroy`), every session carrying a binding is freed
exactly once (one `freeBinding` per bound session), a `process_loop` run
whose guard observes `LOOP_RESTART` or `LOOP_STOP` ends in exactly this
cleanup with the thread returning `NULL`, and `main` joins the worker before
any global-teardown event. -/
theorem C7_drain_on_exit (ps : List NcSession) (d : np2srv_dslock) (c : LOOPCTRL)
    (b : Bool) (rest : List WIter) (rc : Int) (ch : NcSession) :
    (process_loop_cleanup ps d).1 = [] ∧
    (process_loop_cleanup ps d).2.1 =
      ((nc_ps_clear ps true d).2.1).map WEvent.teardown ++ [WEvent.threadDestroy] ∧
    ((nc_ps_clear ps true d).2.1).count TDEvent.freeBinding =
      (ps.filter (fun s => s.data.isSome)).length ∧
    process_loop_run ({ ctrl := LOOP_RESTART, rc := rc, newChan := ch } :: rest) ps d =
      ((process_loop_cleanup ps d).1, (process_loop_cleanup ps d).2.2,
       (process_loop_cleanup ps d).2.1, WExit.returnedNull) ∧
    process_loop_run ({ ctrl := LOOP_STOP, rc := rc, newChan := ch } :: rest) ps d =
      ((process_loop_cleanup ps d).1, (process_loop_cleanup ps d).2.2,
       (process_loop_cleanup ps d).2.1, WExit.returnedNull) ∧
    (main_after_accept_loop c b).head? = some MEvent.pthreadJoinWorker := by
  refine ⟨?_, ?_, nc_ps_clear_all_count ps d, ?_, ?_, rfl⟩
  · exact nc_ps_clear_all_empties ps d
  · rfl
  · simp [process_loop_run]
  · simp [process_loop_run]

/-- Witness for C7: two sessions, one bound to store handle 8 and holding
the running lock, one never bound; drain on a stop request. -/
theorem C7_drain_on_exit_witness :
    (process_loop_cleanup
      [ { id := 1, status := NcStatus.alive,
          data := some { ncs := 1, srs := some 8, ds := SR_DS_RUNNING, opts := SR_SESS_DEFAULT } },
        { id := 2, status := NcStatus.invalid, data := none } ]
      { running := some 1, startup := none, candidate := none }).1 = [] ∧
    ((nc_ps_clear
      [ { id := 1, status := NcStatus.alive,
          data := some { ncs := 1, srs := some 8, ds := SR_DS_RUNNING, opts := SR_SESS_DEFAULT } },
        { id := 2, status := NcStatus.invalid, data := none } ]
      true { running := some 1, startup := none, candidate := none }).2.1).count
        TDEvent.freeBinding = 1 ∧
    (main_after_accept_loop LOOP_STOP true).head? = some MEvent.pthreadJoinWorker := by
  have h := C7_drain_on_exit
    [ { id := 1, status := NcStatus.alive,
        data := some { ncs := 1, srs := some 8, ds := SR_DS_RUNNING, opts := SR_SESS_DEFAULT } },
      { id := 2, status := NcStatus.invalid, data := none } ]
    { running := some 1, startup := none, candidate := none } LOOP_STOP true [] 0
    { id := 9, status := NcStatus.alive, data := none }
  exact ⟨h.1, h.2.2.1, h.2.2.2.2.2⟩

/-- Phase of `main`'s lifecycle sequencing around the `restart` label. -/
inductive MainPhase where
  | initPhase
  | acceptLoop
  | joinPhase
  | cleanupPhase
  | donePhase
deriving DecidableEq, Repr

/-- The lifecycle state of `main`: the global flag `control` and the current
phase of the run. -/
structure MainState where
  control : LOOPCTRL
  phase : MainPhase
deriving DecidableEq, Repr

/-- One step of `main`'s lifecycle sequencing in the absence of further
signals. Mirrors the source structure: the `restart:` label runs
`server_init` and spawns the worker, landing in the accept loop; the accept
loop iterates only while `control == LOOP_CONTINUE`, otherwise it falls
through to `pthread_join`; after the join comes the `cleanup` block; at its
end `control == LOOP_RESTART` takes `goto restart` — and nothing in `main`
ever writes `control`, so the flag it re-enters with is the one it left with
— while any other flag returns from `main`. -/
def main_step (st : MainState) : MainState :=
  match st.phase with
  | MainPhase.initPhase => { st with phase := MainPhase.acceptLoop }
  | MainPhase.acceptLoop =>
    if st.control = LOOP_CONTINUE then st
    else { st with phase := MainPhase.joinPhase }
  | MainPhase.joinPhase => { st with phase := MainPhase.cleanupPhase }
  | MainPhase.cleanupPhase =>
    if st.control = LOOP_RESTART then { st with phase := MainPhase.initPhase }
    else { st with phase := MainPhase.donePhase }
  | MainPhase.donePhase => st

/-- The accept loop performs a normal iteration exactly when it is the
current phase and the guard `control == LOOP_CONTINUE` holds (and likewise
for the Poll Worker's guard, which reads the same flag). -/
def acceptLoopIterates (st : MainState) : Prop :=
  st.phase = MainPhase.acceptLoop ∧ st.control = LOOP_CONTINUE

/-- `main_step` never changes the control flag. -/
theorem main_step_control (st : MainState) : (main_step st).control = st.control := by
  unfold main_step
  rcases st with ⟨c, p⟩
  cases p <;> dsimp only <;> first | rfl | split <;> rfl

/-- Claim C1 (refuted by the code): a run entered through the restart path
starts at the `cleanup` label with `control = LOOP_RESTART` and takes
`goto restart`; since `main` never resets the flag, every subsequent state
still has `control = LOOP_RESTART`, the re-entered run does reach the accept
loop (after two steps), and yet the loop guard never permits a single normal
iteration — the Accept Loop does not resume accepting and the Poll Worker's
identical guard does not resume polling. -/
theorem C1_restart_reentry_never_iterates (n : Nat) :
    (main_step^[n] { control := LOOP_RESTART, phase := MainPhase.cleanupPhase }).control =
      LOOP_RESTART ∧
    ¬ acceptLoopIterates
      (main_step^[n] { control := LOOP_RESTART, phase := MainPhase.cleanupPhase }) ∧
    (main_step^[2] { control := LOOP_RESTART, phase := MainPhase.cleanupPhase }).phase =
      MainPhase.acceptLoop := by
  have hc : ∀ m : Nat,
      (main_step^[m] { control := LOOP_RESTART, phase := MainPhase.cleanupPhase }).control =
        LOOP_RESTART := by
    intro m
    induction m with
    | zero => rfl
    | succ k ih =>
      rw [Function.iterate_succ_apply', main_step_control]
      exact ih
  refine ⟨hc n, ?_, rfl⟩
  intro hit
  have h2 := hit.2
  rw [hc n] at h2
  exact absurd h2 (by decide)
